import Mathlib

/-!
Shallow embedding of the AWS utilization-report service
(`server/aws_utils.py`, `server/report_server.py`).

Values of CloudWatch datapoints are modelled as rationals, timestamps as
naturals.  A cloud-API call that can fail is modelled as an `Option`
result: `none` is a raised exception (or a failed lookup), `some` the
successful response.
-/

/-- One CloudWatch datapoint: `(Timestamp, value-of-the-requested-statistic)`. -/
abbrev Datapoint := Nat × ℚ

/-- The dictionary returned by `get_cloudwatch_metric_data`.  The optional
`total` field models the `'total'` key that `get_rds_metrics` attaches to
the memory dictionary by mutation; `none` means the key is absent. -/
structure MetricSeries where
  timestamps : List Nat
  values : List ℚ
  average : ℚ
  min : ℚ
  max : ℚ
  total : Option ℚ
  deriving DecidableEq, Repr

/-- The zero/empty series built in the `except` branches:
`{'timestamps': [], 'values': [], 'average': 0, 'min': 0, 'max': 0}`. -/
def emptySeries : MetricSeries :=
  { timestamps := [], values := [], average := 0, min := 0, max := 0, total := none }

/-- Python `min(values)` guarded by `if values else 0`. -/
def listMin : List ℚ → ℚ
  | [] => 0
  | x :: xs => xs.foldl Min.min x

/-- Python `max(values)` guarded by `if values else 0`. -/
def listMax : List ℚ → ℚ
  | [] => 0
  | x :: xs => xs.foldl Max.max x

/-- Python `sum(values) / len(values) if values else 0`. -/
def listMean (l : List ℚ) : ℚ :=
  if l = [] then 0 else l.sum / (l.length : ℚ)

/-- Python `sorted(dps, key=lambda x: x['Timestamp'])`: a stable sort by
timestamp, modelled by insertion sort (stable, like Python's sort). -/
def sortByTimestamp (l : List Datapoint) : List Datapoint :=
  List.insertionSort (fun a b => a.1 ≤ b.1) l

/-- Python single-character `str.split(sep)` on the character list. -/
def splitChars (sep : Char) : List Char → List (List Char)
  | [] => [[]]
  | c :: cs =>
    match splitChars sep cs with
    | [] => if c = sep then [[], []] else [[c]]
    | r :: rs => if c = sep then [] :: r :: rs else (c :: r) :: rs

/-- Python `s.split('|')` (one-character separator). -/
def pySplit (s : String) (sep : Char) : List String :=
  (splitChars sep s.data).map (fun cs => String.mk cs)

/-- Python `str.lower()` (ASCII is all that appears here). -/
def lowerStr (s : String) : String :=
  String.mk (s.data.map Char.toLower)

/-- `get_cloudwatch_metric_data` (aws_utils.py:88-126).  The argument is the
outcome of `cloudwatch.get_metric_statistics`: `none` when the call raises,
`some dps` its `Datapoints` list otherwise.  Datapoints are sorted by
timestamp, then reduced to values/average/min/max. -/
def get_cloudwatch_metric_data (result : Option (List Datapoint)) : MetricSeries :=
  match result with
  | none => emptySeries
  | some response =>
    let data_points := sortByTimestamp response
    let timestamps := data_points.map Prod.fst
    let values := data_points.map Prod.snd
    { timestamps := timestamps
      values := values
      average := listMean values
      min := listMin values
      max := listMax values
      total := none }

/-- Does `needle` occur at the start of `hay`? -/
def startsWithChars : List Char → List Char → Bool
  | [], _ => true
  | _ :: _, [] => false
  | a :: as, b :: bs => a = b && startsWithChars as bs

/-- Does `needle` occur anywhere in `hay`? -/
def containsChars (needle : List Char) : List Char → Bool
  | [] => needle.isEmpty
  | b :: bs => startsWithChars needle (b :: bs) || containsChars needle bs

/-- Python's `needle in hay` substring test on strings. -/
def containsSub (needle hay : String) : Bool :=
  containsChars needle.data hay.data

/-- The memory-capacity estimate for an RDS instance class
(aws_utils.py:241-248), branch order exactly as in the source. -/
def rdsTotalMemoryGb (instance_class : String) : ℚ :=
  if containsSub "micro" instance_class then 1
  else if containsSub "small" instance_class then 2
  else if containsSub "medium" instance_class then 4
  else if containsSub "large" instance_class then 8
  else if containsSub "xlarge" instance_class then 16
  else if containsSub "2xlarge" instance_class then 32
  else if containsSub "4xlarge" instance_class then 64
  else 8

/-- Byte→GB conversion applied to RDS memory/disk series
(aws_utils.py:250-256, 267-273): every value and each scalar is divided
by `1024*1024*1024`; the `total` key is untouched. -/
def normalize_bytes_to_gb (s : MetricSeries) : MetricSeries :=
  { s with
    values := s.values.map (fun v => v / (1024 * 1024 * 1024))
    average := s.average / (1024 * 1024 * 1024)
    min := s.min / (1024 * 1024 * 1024)
    max := s.max / (1024 * 1024 * 1024) }

/-- The fields of a `describe_instances` record that the code reads.
`tags` is `none` when the `'Tags'` key is absent.  `platform` is `none`
when `'Platform'` is absent, `some none` when present but null. -/
structure Ec2Instance where
  tags : Option (List (String × String))
  instanceType : String
  state : String
  platform : Option (Option String)
  deriving DecidableEq, Repr

/-- The fields of a `describe_db_instances` record that the code reads. -/
structure RdsInstance where
  instanceClass : String
  status : String
  engine : String
  deriving DecidableEq, Repr

/-- An aggregated per-resource record, as returned by `get_ec2_metrics`,
`get_rds_metrics` and collected by `get_instance_metrics`.  `platform`
(EC2 only) and `engine` (RDS only) are `none` when the key is absent. -/
structure ResourceMetrics where
  id : String
  name : String
  rtype : String
  state : String
  platform : Option String
  engine : Option String
  region : String
  service_type : String
  cpu : MetricSeries
  memory : MetricSeries
  disk : MetricSeries
  deriving DecidableEq, Repr

/-- The cloud environment a report request runs against: per-resource
detail lookups (`none` = the describe call raises) and the CloudWatch
query interface keyed by metric name, namespace and dimension list. -/
structure Env where
  ec2Detail : String → String → Option Ec2Instance
  rdsDetail : String → String → Option RdsInstance
  cw : String → String → List (String × String) → Option (List Datapoint)

/-- The name-resolution loop (aws_utils.py:38-42 and 137-141):
start from a default, scan the tags, keep the value of every tag keyed
`"Name"` — so the last match wins.  `tags = none` models an instance
without a `'Tags'` key. -/
def resolveName (dflt : String) (tags : Option (List (String × String))) : String :=
  match tags with
  | none => dflt
  | some ts => ts.foldl (fun acc tag => if tag.1 = "Name" then tag.2 else acc) dflt

/-- Platform normalization (aws_utils.py:44-46, 143-145):
`instance.get('Platform', 'Linux')`, then `None → 'Linux'`. -/
def resolvePlatform : Option (Option String) → String
  | none => "Linux"
  | some none => "Linux"
  | some (some p) => p

/-- `get_ec2_metrics` (aws_utils.py:128-208).  A failed detail lookup
models the `except` branch: the degraded record. -/
def get_ec2_metrics (env : Env) (instance_id region : String) : ResourceMetrics :=
  match env.ec2Detail instance_id region with
  | none =>
    { id := instance_id, name := instance_id, rtype := "Unknown", state := "Unknown"
      platform := some "Unknown", engine := none, region := region, service_type := "EC2"
      cpu := emptySeries, memory := emptySeries, disk := emptySeries }
  | some inst =>
    let instance_name := resolveName instance_id inst.tags
    let platform := resolvePlatform inst.platform
    let dimensions := [("InstanceId", instance_id)]
    let cpu_data := get_cloudwatch_metric_data (env.cw "CPUUtilization" "AWS/EC2" dimensions)
    let memory_metric :=
      if lowerStr platform = "windows" then "Memory % Committed Bytes In Use"
      else "mem_used_percent"
    let memory_data := get_cloudwatch_metric_data (env.cw memory_metric "CWAgent" dimensions)
    let disk_dimensions := dimensions ++
      [(if lowerStr platform = "windows" then "instance" else "path",
        if lowerStr platform = "windows" then "C:" else "/")]
    let disk_metric :=
      if lowerStr platform = "windows" then "LogicalDisk % Free Space"
      else "disk_used_percent"
    let disk_data := get_cloudwatch_metric_data (env.cw disk_metric "CWAgent" disk_dimensions)
    { id := instance_id, name := instance_name, rtype := inst.instanceType
      state := inst.state, platform := some platform, engine := none
      region := region, service_type := "EC2"
      cpu := cpu_data, memory := memory_data, disk := disk_data }

/-- `get_rds_metrics` (aws_utils.py:210-304).  The memory series is
byte→GB normalized and capacity-annotated only when it has datapoints;
the disk series is normalized only when it has datapoints; the degraded
record carries a memory series with `'total': 0`. -/
def get_rds_metrics (env : Env) (instance_id region : String) : ResourceMetrics :=
  match env.rdsDetail instance_id region with
  | none =>
    { id := instance_id, name := instance_id, rtype := "Unknown", state := "Unknown"
      platform := none, engine := some "Unknown", region := region, service_type := "RDS"
      cpu := emptySeries
      memory := { emptySeries with total := some 0 }
      disk := emptySeries }
  | some inst =>
    let dimensions := [("DBInstanceIdentifier", instance_id)]
    let cpu_data := get_cloudwatch_metric_data (env.cw "CPUUtilization" "AWS/RDS" dimensions)
    let memory_raw := get_cloudwatch_metric_data (env.cw "FreeableMemory" "AWS/RDS" dimensions)
    let memory_data :=
      if memory_raw.values = [] then memory_raw
      else { normalize_bytes_to_gb memory_raw with
             total := some (rdsTotalMemoryGb inst.instanceClass) }
    let disk_raw := get_cloudwatch_metric_data (env.cw "FreeStorageSpace" "AWS/RDS" dimensions)
    let disk_data := if disk_raw.values = [] then disk_raw else normalize_bytes_to_gb disk_raw
    { id := instance_id, name := instance_id, rtype := inst.instanceClass
      state := inst.status, platform := none, engine := some inst.engine
      region := region, service_type := "RDS"
      cpu := cpu_data, memory := memory_data, disk := disk_data }

/-- `get_instance_metrics` (aws_utils.py:306-325): split each selector on
`'|'`; skip it unless that yields exactly 3 fields; dispatch on the kind,
skipping unrecognized kinds. -/
def get_instance_metrics (env : Env) : List String → List ResourceMetrics
  | [] => []
  | resource :: rest =>
    match pySplit resource '|' with
    | [service_type, instance_id, region] =>
      if service_type = "EC2" then
        get_ec2_metrics env instance_id region :: get_instance_metrics env rest
      else if service_type = "RDS" then
        get_rds_metrics env instance_id region :: get_instance_metrics env rest
      else
        get_instance_metrics env rest
    | _ => get_instance_metrics env rest

/-- The record `get_instance_metrics` produces for a single selector, or
`none` when the selector is skipped.  Its body is the per-iteration case
split of the aggregator loop. -/
def selectorRecord (env : Env) (resource : String) : Option ResourceMetrics :=
  match pySplit resource '|' with
  | [service_type, instance_id, region] =>
    if service_type = "EC2" then some (get_ec2_metrics env instance_id region)
    else if service_type = "RDS" then some (get_rds_metrics env instance_id region)
    else none
  | _ => none

/-- What C2 calls a well-formed selector: exactly 3 pipe-separated fields
and a recognized kind. -/
def recognizedSelector (s : String) : Prop :=
  ∃ kind instance_id region,
    pySplit s '|' = [kind, instance_id, region] ∧ (kind = "EC2" ∨ kind = "RDS")

/-- One normalized inventory record of `list_ec2_instances`. -/
structure ResourceRecord where
  id : String
  name : String
  rtype : String
  state : String
  platform : String
  region : String
  service_type : String
  deriving DecidableEq, Repr

/-- A `describe_instances` reservation entry as read by the listing code:
the instance id plus the shared detail fields. -/
structure Ec2Listed where
  instanceId : String
  detail : Ec2Instance
  deriving DecidableEq, Repr

/-- `list_ec2_instances` (aws_utils.py:29-62): `none` models a raised
describe call (the `except` branch returns `[]`); otherwise the nested
reservation/instance loops normalize each record. -/
def list_ec2_instances (response : Option (List (List Ec2Listed))) (region : String) :
    List ResourceRecord :=
  match response with
  | none => []
  | some reservations =>
    (reservations.map (fun instances =>
      instances.map (fun inst =>
        { id := inst.instanceId
          name := resolveName "Unnamed" inst.detail.tags
          rtype := inst.detail.instanceType
          state := inst.detail.state
          platform := resolvePlatform inst.detail.platform
          region := region
          service_type := "EC2" }))).flatten

/-- The JSON body + HTTP status the report endpoint responds with.
Optional fields model keys absent from the body. -/
structure ReportResponse where
  status : Nat
  success : Option Bool
  error : Option String
  downloadUrl : Option String
  deriving DecidableEq, Repr

/-- Python truthiness of `data.get(...)` for a string field:
`not x` is true when the key is missing (`None`) or the string is empty. -/
def falsyStr : Option String → Bool
  | none => true
  | some s => s = ""

/-- `generate_report` (report_server.py:16-63) after request parsing: the
credential guard, then the collection/render/save pipeline whose outcome
is `Except.error msg` when any step raises, `Except.ok url` otherwise. -/
def generate_report (aws_access_key aws_secret_key : Option String)
    (pipeline : Except String String) : ReportResponse :=
  if falsyStr aws_access_key || falsyStr aws_secret_key then
    { status := 400, success := none
      error := some "AWS credentials are required", downloadUrl := none }
  else
    match pipeline with
    | Except.ok url =>
      { status := 200, success := some true, error := none, downloadUrl := some url }
    | Except.error e =>
      { status := 500, success := some false, error := some e, downloadUrl := none }

/-- An environment in which every cloud call fails. -/
def envDown : Env :=
  { ec2Detail := fun _ _ => none, rdsDetail := fun _ _ => none, cw := fun _ _ _ => none }

/-- An environment with one live EC2 instance (`i-123`, no `Name` tag)
and no reachable CloudWatch. -/
def envTagless : Env :=
  { ec2Detail := fun _ _ =>
      some { tags := some [("Env", "prod")], instanceType := "t3.micro"
             state := "running", platform := none }
    rdsDetail := fun _ _ => none
    cw := fun _ _ _ => none }

/-- An environment with one live RDS instance and no reachable CloudWatch. -/
def envRdsUp : Env :=
  { ec2Detail := fun _ _ => none
    rdsDetail := fun _ _ =>
      some { instanceClass := "db.t3.micro", status := "available", engine := "postgres" }
    cw := fun _ _ _ => none }

/-- The structural invariant C10 states for every series in the pipeline. -/
def seriesInvariant (s : MetricSeries) : Prop :=
  s.timestamps.length = s.values.length ∧
  (s.values ≠ [] → s.min ≤ s.average ∧ s.average ≤ s.max) ∧
  (s.values = [] → s.average = 0 ∧ s.min = 0 ∧ s.max = 0)

theorem foldl_min_le (xs : List ℚ) (a : ℚ) : xs.foldl Min.min a ≤ a := by
  induction xs generalizing a with
  | nil => exact le_refl a
  | cons x xs ih =>
    calc (x :: xs).foldl Min.min a = xs.foldl Min.min (Min.min a x) := rfl
    _ ≤ Min.min a x := ih (Min.min a x)
    _ ≤ a := min_le_left a x

theorem foldl_min_le_mem (xs : List ℚ) (a x : ℚ) (hx : x ∈ xs) :
    xs.foldl Min.min a ≤ x := by
  induction xs generalizing a with
  | nil => cases hx
  | cons y ys ih =>
    rcases List.mem_cons.mp hx with h | h
    · subst h
      calc (x :: ys).foldl Min.min a = ys.foldl Min.min (Min.min a x) := rfl
      _ ≤ Min.min a x := foldl_min_le ys (Min.min a x)
      _ ≤ x := min_le_right a x
    · exact ih (Min.min a y) h

theorem foldl_min_mem (xs : List ℚ) (a : ℚ) :
    xs.foldl Min.min a = a ∨ xs.foldl Min.min a ∈ xs := by
  induction xs generalizing a with
  | nil => exact Or.inl rfl
  | cons x xs ih =>
    rcases ih (Min.min a x) with h | h
    · rcases min_choice a x with hc | hc
      · exact Or.inl (by rw [List.foldl_cons, h, hc])
      · exact Or.inr (by rw [List.foldl_cons, h, hc]; exact List.mem_cons_self x xs)
    · exact Or.inr (List.mem_cons_of_mem x h)

theorem listMin_le (l : List ℚ) (x : ℚ) (hx : x ∈ l) : listMin l ≤ x := by
  match l with
  | [] => cases hx
  | y :: ys =>
    rcases List.mem_cons.mp hx with h | h
    · subst h; exact foldl_min_le ys x
    · exact foldl_min_le_mem ys y x h

theorem listMin_mem (l : List ℚ) (h : l ≠ []) : listMin l ∈ l := by
  match l with
  | [] => exact absurd rfl h
  | y :: ys =>
    rcases foldl_min_mem ys y with h1 | h1
    · rw [listMin, h1]; exact List.mem_cons_self y ys
    · rw [listMin]; exact List.mem_cons_of_mem y h1

theorem foldl_max_le (xs : List ℚ) (a : ℚ) : a ≤ xs.foldl Max.max a := by
  induction xs generalizing a with
  | nil => exact le_refl a
  | cons x xs ih =>
    calc a ≤ Max.max a x := le_max_left a x
    _ ≤ xs.foldl Max.max (Max.max a x) := ih (Max.max a x)
    _ = (x :: xs).foldl Max.max a := rfl

theorem foldl_max_le_mem (xs : List ℚ) (a x : ℚ) (hx : x ∈ xs) :
    x ≤ xs.foldl Max.max a := by
  induction xs generalizing a with
  | nil => cases hx
  | cons y ys ih =>
    rcases List.mem_cons.mp hx with h | h
    · subst h
      calc x ≤ Max.max a x := le_max_right a x
      _ ≤ ys.foldl Max.max (Max.max a x) := foldl_max_le ys (Max.max a x)
      _ = (x :: ys).foldl Max.max a := rfl
    · exact ih (Max.max a y) h

theorem foldl_max_mem (xs : List ℚ) (a : ℚ) :
    xs.foldl Max.max a = a ∨ xs.foldl Max.max a ∈ xs := by
  induction xs generalizing a with
  | nil => exact Or.inl rfl
  | cons x xs ih =>
    rcases ih (Max.max a x) with h | h
    · rcases max_choice a x with hc | hc
      · exact Or.inl (by rw [List.foldl_cons, h, hc])
      · exact Or.inr (by rw [List.foldl_cons, h, hc]; exact List.mem_cons_self x xs)
    · exact Or.inr (List.mem_cons_of_mem x h)

theorem le_listMax (l : List ℚ) (x : ℚ) (hx : x ∈ l) : x ≤ listMax l := by
  match l with
  | [] => cases hx
  | y :: ys =>
    rcases List.mem_cons.mp hx with h | h
    · subst h; exact foldl_max_le ys x
    · exact foldl_max_le_mem ys y x h

theorem listMax_mem (l : List ℚ) (h : l ≠ []) : listMax l ∈ l := by
  match l with
  | [] => exact absurd rfl h
  | y :: ys =>
    rcases foldl_max_mem ys y with h1 | h1
    · rw [listMax, h1]; exact List.mem_cons_self y ys
    · rw [listMax]; exact List.mem_cons_of_mem y h1

theorem listMin_le_mean (l : List ℚ) (h : l ≠ []) : listMin l ≤ listMean l := by
  have hlen : (0 : ℚ) < (l.length : ℚ) := by
    have := List.length_pos.mpr h
    exact_mod_cast this
  rw [listMean, if_neg h, le_div_iff₀ hlen]
  have hb := List.card_nsmul_le_sum l (listMin l) (fun x hx => listMin_le l x hx)
  rw [nsmul_eq_mul] at hb
  linarith

theorem mean_le_listMax (l : List ℚ) (h : l ≠ []) : listMean l ≤ listMax l := by
  have hlen : (0 : ℚ) < (l.length : ℚ) := by
    have := List.length_pos.mpr h
    exact_mod_cast this
  rw [listMean, if_neg h, div_le_iff₀ hlen]
  have hb := List.sum_le_card_nsmul l (listMax l) (fun x hx => le_listMax l x hx)
  rw [nsmul_eq_mul] at hb
  linarith

theorem sortByTimestamp_perm (l : List Datapoint) :
    List.Perm (sortByTimestamp l) l :=
  List.perm_insertionSort _ l

theorem sortByTimestamp_pairwise (l : List Datapoint) :
    (sortByTimestamp l).Pairwise (fun a b => a.1 ≤ b.1) := by
  haveI : IsTotal Datapoint (fun a b => a.1 ≤ b.1) := ⟨fun a b => Nat.le_total a.1 b.1⟩
  haveI : IsTrans Datapoint (fun a b => a.1 ≤ b.1) :=
    ⟨fun _ _ _ hab hbc => le_trans hab hbc⟩
  exact List.sorted_insertionSort _ l

theorem sum_map_div (l : List ℚ) (c : ℚ) :
    (l.map (fun x => x / c)).sum = l.sum / c := by
  have h := List.sum_map_mul_right l (fun x : ℚ => x) c⁻¹
  simpa [div_eq_mul_inv] using h

theorem listMean_map_div (l : List ℚ) (c : ℚ) :
    listMean (l.map (fun x => x / c)) = listMean l / c := by
  rcases eq_or_ne l [] with h | h
  · subst h; simp [listMean]
  · have hm : l.map (fun x => x / c) ≠ [] := by simpa using h
    rw [listMean, listMean, if_neg h, if_neg hm, List.length_map, sum_map_div,
      div_div, div_div, mul_comm]

theorem selectorRecord_eq_none_of_malformed (env : Env) (s : String)
    (h : (pySplit s '|').length ≠ 3) : selectorRecord env s = none := by
  unfold selectorRecord
  rcases hsp : pySplit s '|' with _ | ⟨k, _ | ⟨i, _ | ⟨r, _ | ⟨x, tl⟩⟩⟩⟩ <;>
    simp_all [hsp]

theorem get_instance_metrics_eq_filterMap (env : Env) (rl : List String) :
    get_instance_metrics env rl = rl.filterMap (selectorRecord env) := by
  induction rl with
  | nil => rfl
  | cons resource rest ih =>
    rw [List.filterMap_cons]
    unfold get_instance_metrics selectorRecord
    rcases hsp : pySplit resource '|' with _ | ⟨k, _ | ⟨i, _ | ⟨r, _ | ⟨x, tl⟩⟩⟩⟩ <;>
      simp only [hsp, ih] <;> first | rfl | (split_ifs <;> rfl)

theorem selectorRecord_isSome_iff (env : Env) (s : String) :
    (selectorRecord env s).isSome = true ↔ recognizedSelector s := by
  unfold selectorRecord recognizedSelector
  rcases hsp : pySplit s '|' with _ | ⟨k, _ | ⟨i, _ | ⟨r, _ | ⟨x, tl⟩⟩⟩⟩
  · simp [hsp]
  · simp [hsp]
  · simp [hsp]
  · simp only [hsp]
    constructor
    · intro hs
      by_cases h1 : k = "EC2"
      · exact ⟨k, i, r, rfl, Or.inl h1⟩
      · by_cases h2 : k = "RDS"
        · exact ⟨k, i, r, rfl, Or.inr h2⟩
        · simp [h1, h2] at hs
    · rintro ⟨kind, iid, rg, heq, hkind⟩
      obtain ⟨rfl, rfl, rfl⟩ : k = kind ∧ i = iid ∧ r = rg := by
        simpa using heq
      rcases hkind with rfl | rfl <;> simp
  · simp [hsp]

/-- C1: The spec claims the instance-class memory lookup gives later, more
specific size names precedence over a generic `large` match, in particular
`classify("db.r5.2xlarge") = 32`.  The code checks `'large'` before
`'xlarge'`/`'2xlarge'`/`'4xlarge'`, so every class containing `xlarge`
already matches the `large` branch: `classify("db.r5.2xlarge") = 8`, and
the 16/32/64 branches are unreachable.  The remaining lookup values of the
claim do hold. -/
theorem rds_memory_lookup_large_shadows_xlarge :
    rdsTotalMemoryGb "db.r5.2xlarge" = 8 ∧
    rdsTotalMemoryGb "db.r5.xlarge" = 8 ∧
    rdsTotalMemoryGb "db.m5.4xlarge" = 8 ∧
    rdsTotalMemoryGb "db.t3.large" = 8 ∧
    rdsTotalMemoryGb "db.t3.micro" = 1 ∧
    rdsTotalMemoryGb "db.t3.small" = 2 ∧
    rdsTotalMemoryGb "db.t3.medium" = 4 ∧
    rdsTotalMemoryGb "db.unknown.huge" = 8 := by
  refine ⟨?_, ?_, ?_, ?_, ?_, ?_, ?_, ?_⟩ <;> decide

/-- C2: the aggregator returns exactly one record per well-formed selector
with a recognized kind, in input order with repeats kept (the `filterMap`
equation), and a failed detail lookup still yields a record, degraded to
`Unknown` state/type (and engine for RDS) with all series empty/zeroed. -/
theorem aggregator_one_record_per_recognized_selector (env : Env)
    (rl : List String) (iid region : String) :
    get_instance_metrics env rl = rl.filterMap (selectorRecord env) ∧
    (∀ s : String, (selectorRecord env s).isSome = true ↔ recognizedSelector s) ∧
    (env.ec2Detail iid region = none →
      get_ec2_metrics env iid region =
        { id := iid, name := iid, rtype := "Unknown", state := "Unknown"
          platform := some "Unknown", engine := none, region := region
          service_type := "EC2"
          cpu := emptySeries, memory := emptySeries, disk := emptySeries }) ∧
    (env.rdsDetail iid region = none →
      get_rds_metrics env iid region =
        { id := iid, name := iid, rtype := "Unknown", state := "Unknown"
          platform := none, engine := some "Unknown", region := region
          service_type := "RDS"
          cpu := emptySeries, memory := { emptySeries with total := some 0 }
          disk := emptySeries }) := by
  refine ⟨get_instance_metrics_eq_filterMap env rl,
    fun s => selectorRecord_isSome_iff env s, fun h => ?_, fun h => ?_⟩
  · unfold get_ec2_metrics
    rw [h]
  · unfold get_rds_metrics
    rw [h]

/-- Witness for C2 at a concrete dead environment: the degraded EC2 record. -/
theorem aggregator_one_record_witness :
    get_ec2_metrics envDown "i-1" "r1" =
      { id := "i-1", name := "i-1", rtype := "Unknown", state := "Unknown"
        platform := some "Unknown", engine := none, region := "r1"
        service_type := "EC2"
        cpu := emptySeries, memory := emptySeries, disk := emptySeries } :=
  (aggregator_one_record_per_recognized_selector envDown [] "i-1" "r1").2.2.1 rfl

/-- C3: a failed CloudWatch call (`none`) and an empty datapoint response
both yield the empty/zero series, with no error. -/
theorem fetcher_failure_or_empty_gives_zero_series :
    get_cloudwatch_metric_data none = emptySeries ∧
    get_cloudwatch_metric_data (some []) = emptySeries ∧
    emptySeries =
      { timestamps := [], values := [], average := 0, min := 0, max := 0
        total := none } :=
  ⟨rfl, rfl, rfl⟩

/-- C4: a selector that does not split into exactly 3 fields contributes no
record, and the records of the rest of the batch are unchanged. -/
theorem aggregator_skips_malformed (env : Env) (pre post : List String)
    (s : String) (h : (pySplit s '|').length ≠ 3) :
    get_instance_metrics env (pre ++ s :: post) =
      get_instance_metrics env (pre ++ post) := by
  rw [get_instance_metrics_eq_filterMap, get_instance_metrics_eq_filterMap,
    List.filterMap_append, List.filterMap_append, List.filterMap_cons,
    selectorRecord_eq_none_of_malformed env s h]

/-- Witness for C4: the malformed selector `"BAD"` is dropped from a
two-element batch. -/
theorem aggregator_skips_malformed_witness :
    get_instance_metrics envDown ["BAD", "EC2|i-1|r1"] =
      get_instance_metrics envDown ["EC2|i-1|r1"] :=
  aggregator_skips_malformed envDown [] ["EC2|i-1|r1"] "BAD" (by decide)

/-- C5: byte→GB normalization divides every value and the three scalars by
exactly `2^30`; consequently it commutes with the arithmetic mean; and the
RDS memory pipeline applies it (at most) once: the final memory values are
the raw fetched values each divided once by `2^30`. -/
theorem normalize_divides_by_two_pow_thirty (s : MetricSeries) (env : Env)
    (iid region : String) (d : RdsInstance)
    (hd : env.rdsDetail iid region = some d) :
    (normalize_bytes_to_gb s).values = s.values.map (fun v => v / 2 ^ 30) ∧
    (normalize_bytes_to_gb s).average = s.average / 2 ^ 30 ∧
    (normalize_bytes_to_gb s).min = s.min / 2 ^ 30 ∧
    (normalize_bytes_to_gb s).max = s.max / 2 ^ 30 ∧
    (s.average = listMean s.values →
      (normalize_bytes_to_gb s).average = listMean (normalize_bytes_to_gb s).values) ∧
    (get_rds_metrics env iid region).memory.values =
      (get_cloudwatch_metric_data
        (env.cw "FreeableMemory" "AWS/RDS" [("DBInstanceIdentifier", iid)])).values.map
        (fun v => v / 2 ^ 30) := by
  have hc : ((1024 : ℚ) * 1024 * 1024) = 2 ^ 30 := by norm_num
  refine ⟨by simp [normalize_bytes_to_gb, hc], by simp [normalize_bytes_to_gb, hc],
    by simp [normalize_bytes_to_gb, hc], by simp [normalize_bytes_to_gb, hc],
    fun hs => ?_, ?_⟩
  · rw [show (normalize_bytes_to_gb s).values = s.values.map (fun v => v / 2 ^ 30) by
      simp [normalize_bytes_to_gb, hc]]
    rw [show (normalize_bytes_to_gb s).average = s.average / 2 ^ 30 by
      simp [normalize_bytes_to_gb, hc], hs, listMean_map_div]
  · unfold get_rds_metrics
    rw [hd]
    by_cases hv : (get_cloudwatch_metric_data
        (env.cw "FreeableMemory" "AWS/RDS" [("DBInstanceIdentifier", iid)])).values = []
    · simp [hv]
    · simp [hv, normalize_bytes_to_gb, hc]

/-- Witness for C5 at the empty series and a live RDS environment. -/
theorem normalize_divides_witness :
    (normalize_bytes_to_gb emptySeries).average = emptySeries.average / 2 ^ 30 :=
  (normalize_divides_by_two_pow_thirty emptySeries envRdsUp "db-1" "r1"
    { instanceClass := "db.t3.micro", status := "available", engine := "postgres" }
    rfl).2.1

/-- C6 counterexample: with the detail lookup failing, the degraded RDS
record has an empty memory series and yet carries the capacity key, with
value 0 — the claim says no capacity field may be present when no memory
datapoint exists. -/
theorem rds_degraded_total_zero_counterexample :
    (get_rds_metrics envDown "db-1" "us-west-2").memory.values = [] ∧
    (get_rds_metrics envDown "db-1" "us-west-2").memory.total = some 0 :=
  ⟨rfl, rfl⟩

/-- C6 amended: when the detail lookup succeeds, the capacity field is
present iff at least one memory datapoint was returned (and equals the
class estimate); but the degraded record of a failed lookup carries
`total = 0`.  The fetcher itself never attaches a capacity field. -/
theorem rds_total_presence (env : Env) (iid region : String) :
    (get_rds_metrics env iid region).memory.total =
      (match env.rdsDetail iid region with
       | none => some 0
       | some d =>
         if (get_cloudwatch_metric_data
             (env.cw "FreeableMemory" "AWS/RDS" [("DBInstanceIdentifier", iid)])).values = []
         then none
         else some (rdsTotalMemoryGb d.instanceClass)) ∧
    (∀ r : Option (List Datapoint), (get_cloudwatch_metric_data r).total = none) := by
  constructor
  · cases hd : env.rdsDetail iid region with
    | none => unfold get_rds_metrics; rw [hd]
    | some d =>
      unfold get_rds_metrics
      rw [hd]
      by_cases hv : (get_cloudwatch_metric_data
          (env.cw "FreeableMemory" "AWS/RDS" [("DBInstanceIdentifier", iid)])).values = []
      · simp only [hv, if_true, if_pos]
        have : (get_cloudwatch_metric_data
            (env.cw "FreeableMemory" "AWS/RDS" [("DBInstanceIdentifier", iid)])).total
            = none := by
          cases env.cw "FreeableMemory" "AWS/RDS" [("DBInstanceIdentifier", iid)] <;> rfl
        simpa [hv] using this
      · simp [hv]
  · intro r
    cases r <;> rfl

/-- C7: on a non-empty datapoint response, the fetcher output is the input
sorted by timestamp ascending (timestamp/value pairs are a permutation of
the input with alignment kept), with average the arithmetic mean of the
returned values and min/max their minimum/maximum. -/
theorem fetcher_sorts_and_reduces (dps : List Datapoint) (h : dps ≠ []) :
    List.Perm ((get_cloudwatch_metric_data (some dps)).timestamps.zip
      (get_cloudwatch_metric_data (some dps)).values) dps ∧
    (get_cloudwatch_metric_data (some dps)).timestamps.Pairwise (· ≤ ·) ∧
    (get_cloudwatch_metric_data (some dps)).average
      = (dps.map Prod.snd).sum / (dps.length : ℚ) ∧
    (get_cloudwatch_metric_data (some dps)).min ∈
      (get_cloudwatch_metric_data (some dps)).values ∧
    (∀ v ∈ (get_cloudwatch_metric_data (some dps)).values,
      (get_cloudwatch_metric_data (some dps)).min ≤ v) ∧
    (get_cloudwatch_metric_data (some dps)).max ∈
      (get_cloudwatch_metric_data (some dps)).values ∧
    (∀ v ∈ (get_cloudwatch_metric_data (some dps)).values,
      v ≤ (get_cloudwatch_metric_data (some dps)).max) ∧
    List.Perm (get_cloudwatch_metric_data (some dps)).values (dps.map Prod.snd) := by
  have hts : (get_cloudwatch_metric_data (some dps)).timestamps
      = (sortByTimestamp dps).map Prod.fst := rfl
  have hvs : (get_cloudwatch_metric_data (some dps)).values
      = (sortByTimestamp dps).map Prod.snd := rfl
  have havg : (get_cloudwatch_metric_data (some dps)).average
      = listMean ((sortByTimestamp dps).map Prod.snd) := rfl
  have hmn : (get_cloudwatch_metric_data (some dps)).min
      = listMin ((sortByTimestamp dps).map Prod.snd) := rfl
  have hmx : (get_cloudwatch_metric_data (some dps)).max
      = listMax ((sortByTimestamp dps).map Prod.snd) := rfl
  have hperm := sortByTimestamp_perm dps
  have hvperm : List.Perm ((sortByTimestamp dps).map Prod.snd) (dps.map Prod.snd) :=
    hperm.map Prod.snd
  have hne : (sortByTimestamp dps).map Prod.snd ≠ [] := by
    intro hcon
    have hnil : sortByTimestamp dps = [] := by simpa using hcon
    rw [hnil] at hperm
    exact h hperm.symm.eq_nil
  refine ⟨?_, ?_, ?_, ?_, ?_, ?_, ?_, ?_⟩
  · rw [hts, hvs, List.zip_map' Prod.fst Prod.snd]
    simpa using hperm
  · rw [hts]
    exact (sortByTimestamp_pairwise dps).map Prod.fst (fun a b hab => hab)
  · rw [havg, listMean, if_neg hne, hvperm.sum_eq, hvperm.length_eq, List.length_map]
  · rw [hmn, hvs]
    exact listMin_mem _ hne
  · rw [hmn, hvs]
    intro v hv
    exact listMin_le _ v hv
  · rw [hmx, hvs]
    exact listMax_mem _ hne
  · rw [hmx, hvs]
    intro v hv
    exact le_listMax _ v hv
  · rw [hvs]
    exact hvperm

/-- Witness for C7: the spec's worked example — unordered input values
`[20, 10, 30]` reduce to values `[10, 20, 30]`, average 20, min 10, max 30. -/
theorem fetcher_sorts_witness :
    (get_cloudwatch_metric_data (some [(1, 20), (0, 10), (2, 30)])).values = [10, 20, 30] ∧
    (get_cloudwatch_metric_data (some [(1, 20), (0, 10), (2, 30)])).average = 20 ∧
    (get_cloudwatch_metric_data (some [(1, 20), (0, 10), (2, 30)])).min = 10 ∧
    (get_cloudwatch_metric_data (some [(1, 20), (0, 10), (2, 30)])).max = 30 ∧
    (get_cloudwatch_metric_data (some [(1, 20), (0, 10), (2, 30)])).min ∈
      (get_cloudwatch_metric_data (some [(1, 20), (0, 10), (2, 30)])).values := by
  refine ⟨?_, ?_, ?_, ?_,
    (fetcher_sorts_and_reduces [(1, 20), (0, 10), (2, 30)] (List.cons_ne_nil _ _)).2.2.2.1⟩
  · norm_num [get_cloudwatch_metric_data, sortByTimestamp]
  · norm_num [get_cloudwatch_metric_data, sortByTimestamp, listMean]
    exact List.cons_ne_nil _ _
  · norm_num [get_cloudwatch_metric_data, sortByTimestamp, listMin]
  · norm_num [get_cloudwatch_metric_data, sortByTimestamp, listMax]

/-- C8: a missing (falsy) access or secret key yields HTTP 400 with an
error message, without consulting the collection/render pipeline; a raised
exception in the pipeline yields HTTP 500 with `success: false` and the
exception message in the body. -/
theorem report_request_status_codes (k sk : Option String)
    (p p2 : Except String String) (e : String) :
    ((falsyStr k = true ∨ falsyStr sk = true) →
      generate_report k sk p =
        { status := 400, success := none
          error := some "AWS credentials are required", downloadUrl := none } ∧
      generate_report k sk p = generate_report k sk p2) ∧
    (falsyStr k = false → falsyStr sk = false →
      generate_report k sk (Except.error e) =
        { status := 500, success := some false, error := some e
          downloadUrl := none }) := by
  constructor
  · intro hcred
    have hb : (falsyStr k || falsyStr sk) = true := by
      rcases hcred with h | h <;> simp [h]
    unfold generate_report
    rw [if_pos hb, if_pos hb]
    exact ⟨rfl, rfl⟩
  · intro hk hsk
    have hb : (falsyStr k || falsyStr sk) = false := by simp [hk, hsk]
    unfold generate_report
    rw [if_neg (by simp [hb])]

/-- Witness for C8: a request with no access key is answered with 400. -/
theorem report_request_status_witness :
    generate_report none (some "sk") (Except.ok "u") =
      { status := 400, success := none
        error := some "AWS credentials are required", downloadUrl := none } :=
  ((report_request_status_codes none (some "sk") (Except.ok "u")
    (Except.error "boom") "boom").1 (Or.inl rfl)).1

/-- C9 counterexample: in the per-instance metrics path the name of an EC2
instance without a `Name` tag defaults to the instance id, not to the
sentinel `"Unnamed"` the claim states for EC2 records. -/
theorem ec2_metrics_name_counterexample :
    (get_ec2_metrics envTagless "i-123" "us-east-1").name = "i-123" ∧
    ("i-123" : String) ≠ "Unnamed" :=
  ⟨rfl, by decide⟩

theorem foldl_resolve_skip (ts : List (String × String)) (a : String)
    (h : ∀ p ∈ ts, p.1 ≠ "Name") :
    ts.foldl (fun acc tag => if tag.1 = "Name" then tag.2 else acc) a = a := by
  induction ts generalizing a with
  | nil => rfl
  | cons t ts ih =>
    have ht : t.1 ≠ "Name" := h t (List.mem_cons_self t ts)
    rw [List.foldl_cons, if_neg ht]
    exact ih a (fun p hp => h p (List.mem_cons_of_mem t hp))

/-- C9 amended: the resolved name is the value of the last `Name` tag in
iteration order, in both the enumerator and the metrics path; with no
`Name` tag (or no tag set), the name defaults to `"Unnamed"` in
`list_ec2_instances` but to the instance id in `get_ec2_metrics`. -/
theorem ec2_name_resolution (ts1 ts2 : List (String × String))
    (v iid region : String) (env : Env) (d : Ec2Instance)
    (h2 : ∀ p ∈ ts2, p.1 ≠ "Name") (hd : env.ec2Detail iid region = some d) :
    resolveName "Unnamed" (some (ts1 ++ ("Name", v) :: ts2)) = v ∧
    resolveName iid (some (ts1 ++ ("Name", v) :: ts2)) = v ∧
    ((∀ p ∈ ts1, p.1 ≠ "Name") →
      resolveName "Unnamed" (some ts1) = "Unnamed" ∧
      resolveName iid (some ts1) = iid) ∧
    resolveName "Unnamed" none = "Unnamed" ∧
    resolveName iid none = iid ∧
    (get_ec2_metrics env iid region).name = resolveName iid d.tags ∧
    (∀ (resp : List (List Ec2Listed)) (rg : String),
      (list_ec2_instances (some resp) rg).map ResourceRecord.name
        = resp.flatten.map (fun i => resolveName "Unnamed" i.detail.tags)) := by
  have hlast : ∀ a : String,
      (ts1 ++ ("Name", v) :: ts2).foldl
        (fun acc tag => if tag.1 = "Name" then tag.2 else acc) a = v := by
    intro a
    rw [List.foldl_append, List.foldl_cons, if_pos rfl]
    exact foldl_resolve_skip ts2 v h2
  refine ⟨hlast "Unnamed", hlast iid, fun h1 => ?_, rfl, rfl, ?_, ?_⟩
  · exact ⟨foldl_resolve_skip ts1 "Unnamed" h1, foldl_resolve_skip ts1 iid h1⟩
  · unfold get_ec2_metrics
    rw [hd]
  · intro resp rg
    unfold list_ec2_instances
    rw [List.map_flatten, List.map_flatten]
    simp [Function.comp_def, List.map_map]

/-- Witness for C9 (amended): two `Name` tags — the later one wins. -/
theorem ec2_name_resolution_witness :
    resolveName "Unnamed" (some ([("Name", "old")] ++ ("Name", "web") :: [])) = "web" :=
  (ec2_name_resolution [("Name", "old")] [] "web" "i-123" "us-east-1" envTagless
    { tags := some [("Env", "prod")], instanceType := "t3.micro"
      state := "running", platform := none }
    (fun p hp => absurd hp (List.not_mem_nil p)) rfl).1

theorem invariant_fetcher (r : Option (List Datapoint)) :
    seriesInvariant (get_cloudwatch_metric_data r) := by
  cases r with
  | none => exact ⟨rfl, fun h => absurd rfl h, fun _ => ⟨rfl, rfl, rfl⟩⟩
  | some dps =>
    refine ⟨?_, fun hne => ?_, fun he => ?_⟩
    · show ((sortByTimestamp dps).map Prod.fst).length
        = ((sortByTimestamp dps).map Prod.snd).length
      rw [List.length_map, List.length_map]
    · exact ⟨listMin_le_mean _ hne, mean_le_listMax _ hne⟩
    · have hl : (sortByTimestamp dps).map Prod.snd = [] := he
      refine ⟨?_, ?_, ?_⟩
      · show listMean ((sortByTimestamp dps).map Prod.snd) = 0
        rw [hl]; rfl
      · show listMin ((sortByTimestamp dps).map Prod.snd) = 0
        rw [hl]; rfl
      · show listMax ((sortByTimestamp dps).map Prod.snd) = 0
        rw [hl]; rfl

theorem invariant_set_total (s : MetricSeries) (t : Option ℚ)
    (h : seriesInvariant s) : seriesInvariant { s with total := t } :=
  h

theorem invariant_normalize (s : MetricSeries) (h : seriesInvariant s) :
    seriesInvariant (normalize_bytes_to_gb s) := by
  obtain ⟨hlen, hne, hemp⟩ := h
  have hc : (0 : ℚ) < 1024 * 1024 * 1024 := by norm_num
  refine ⟨?_, fun hv => ?_, fun hv => ?_⟩
  · show s.timestamps.length = (s.values.map _).length
    rw [List.length_map]; exact hlen
  · have hvne : s.values ≠ [] := by
      intro h0
      apply hv
      show s.values.map _ = []
      rw [h0]; rfl
    obtain ⟨h1, h2⟩ := hne hvne
    constructor
    · show s.min / (1024 * 1024 * 1024) ≤ s.average / (1024 * 1024 * 1024)
      exact div_le_div_of_nonneg_right h1 hc.le
    · show s.average / (1024 * 1024 * 1024) ≤ s.max / (1024 * 1024 * 1024)
      exact div_le_div_of_nonneg_right h2 hc.le
  · have hvnil : s.values = [] := by
      have : s.values.map (fun v => v / (1024 * 1024 * 1024)) = [] := hv
      simpa using this
    obtain ⟨h1, h2, h3⟩ := hemp hvnil
    refine ⟨?_, ?_, ?_⟩
    · show s.average / (1024 * 1024 * 1024) = 0
      rw [h1, zero_div]
    · show s.min / (1024 * 1024 * 1024) = 0
      rw [h2, zero_div]
    · show s.max / (1024 * 1024 * 1024) = 0
      rw [h3, zero_div]

theorem invariant_ec2 (env : Env) (iid rg : String) :
    seriesInvariant (get_ec2_metrics env iid rg).cpu ∧
    seriesInvariant (get_ec2_metrics env iid rg).memory ∧
    seriesInvariant (get_ec2_metrics env iid rg).disk := by
  unfold get_ec2_metrics
  cases env.ec2Detail iid rg with
  | none => exact ⟨invariant_fetcher none, invariant_fetcher none, invariant_fetcher none⟩
  | some inst => exact ⟨invariant_fetcher _, invariant_fetcher _, invariant_fetcher _⟩

theorem invariant_rds (env : Env) (iid rg : String) :
    seriesInvariant (get_rds_metrics env iid rg).cpu ∧
    seriesInvariant (get_rds_metrics env iid rg).memory ∧
    seriesInvariant (get_rds_metrics env iid rg).disk := by
  unfold get_rds_metrics
  cases env.rdsDetail iid rg with
  | none =>
    exact ⟨invariant_fetcher none,
      invariant_set_total emptySeries (some 0) (invariant_fetcher none),
      invariant_fetcher none⟩
  | some inst =>
    refine ⟨invariant_fetcher _, ?_, ?_⟩
    · show seriesInvariant (if _ = _ then _ else _)
      split_ifs with hv
      · exact invariant_fetcher _
      · exact invariant_set_total _ _ (invariant_normalize _ (invariant_fetcher _))
    · show seriesInvariant (if _ = _ then _ else _)
      split_ifs with hv
      · exact invariant_fetcher _
      · exact invariant_normalize _ (invariant_fetcher _)

/-- C10: every series the fetcher produces, and every series inside any
record of an aggregator output, has aligned timestamp/value lengths,
`min ≤ average ≤ max` on non-empty values, and all-zero scalars on empty
values. -/
theorem metric_series_invariant_everywhere (r : Option (List Datapoint))
    (env : Env) (rl : List String) (m : ResourceMetrics)
    (hm : m ∈ get_instance_metrics env rl) :
    seriesInvariant (get_cloudwatch_metric_data r) ∧
    seriesInvariant m.cpu ∧ seriesInvariant m.memory ∧ seriesInvariant m.disk := by
  refine ⟨invariant_fetcher r, ?_⟩
  rw [get_instance_metrics_eq_filterMap] at hm
  obtain ⟨s, _, hrec⟩ := List.mem_filterMap.mp hm
  unfold selectorRecord at hrec
  rcases hsp : pySplit s '|' with _ | ⟨k, _ | ⟨i, _ | ⟨rg, _ | ⟨x, tl⟩⟩⟩⟩ <;>
    rw [hsp] at hrec
  · cases hrec
  · cases hrec
  · cases hrec
  · dsimp only at hrec
    split_ifs at hrec with h1 h2
    · cases hrec
      exact invariant_ec2 env i rg
    · cases hrec
      exact invariant_rds env i rg
  · cases hrec

/-- Witness for C10: the invariant holds on a record of a concrete batch. -/
theorem metric_series_invariant_witness :
    seriesInvariant (get_ec2_metrics envDown "i-1" "r1").cpu := by
  have he : get_instance_metrics envDown ["EC2|i-1|r1"]
      = [get_ec2_metrics envDown "i-1" "r1"] := rfl
  have hm : get_ec2_metrics envDown "i-1" "r1" ∈
      get_instance_metrics envDown ["EC2|i-1|r1"] := by
    rw [he]
    exact List.mem_singleton.mpr rfl
  exact (metric_series_invariant_everywhere none envDown ["EC2|i-1|r1"] _ hm).2.1
